import Mathlib

/-!
Verification of the document/collection protocol layer of the
arangodb-rust-driver repository.

Part 1 embeds the collection methods of
`rincon_client/src/collection/methods.rs` (the `Prepare` trait
implementations: `operation`, `path`, `parameters`, `header`, `content`).

Part 2 models the document operation protocol (insert, get, replace,
update and batch insert with per-element outcomes) from the
specification, since the code deciding those claims is not part of the
provided sources (only its integration tests are).
-/

set_option maxHeartbeats 1000000

namespace Rincon

/-- The logical CRUD category of a request (rincon_core `Operation`). -/
inductive Operation where
  | read
  | create
  | replace
  | update
  | delete
  deriving DecidableEq, Repr

/-- A primitive query-parameter value as used by the collection methods
(booleans and integers are the only kinds inserted in `methods.rs`). -/
inductive ParamValue where
  | vBool (b : Bool)
  | vInt (i : Int)
  deriving DecidableEq, Repr

/-- Query parameters: an ordered list of key/value pairs
(rincon_core `Parameters`). -/
abbrev Parameters := List (String × ParamValue)

/-- `Parameters::empty()`. -/
def Parameters.empty : Parameters := []

/-- `Parameters::insert(key, value)` appends an entry. -/
def Parameters.insertEntry (p : Parameters) (k : String) (v : ParamValue) : Parameters :=
  p ++ [(k, v)]

/-- Modelled from the spec: the base path for collection administration
calls (wire table row `/collection`); the constant itself lives in
rincon_core, outside the provided sources. -/
def PATH_API_COLLECTION : String := "/collection"

/-- Modelled from the spec: suffix for the collection checksum call. -/
def PATH_CHECKSUM : String := "/checksum"

/-- Modelled from the spec: suffix for the collection properties call. -/
def PATH_PROPERTIES : String := "/properties"

/-- Modelled from the spec: suffix for the rename-collection call. -/
def PATH_RENAME : String := "/rename"

/-- Modelled from the spec: suffix for the collection revision call. -/
def PATH_REVISION : String := "/revision"

/-- Modelled from the spec: suffix for the document count call. -/
def PATH_DOCUMENT_COUNT : String := "/count"

/-- Modelled from the spec: query parameter name `excludeSystem`. -/
def PARAM_EXCLUDE_SYSTEM : String := "excludeSystem"

/-- Modelled from the spec: query parameter name `withRevisions`. -/
def PARAM_WITH_REVISIONS : String := "withRevisions"

/-- Modelled from the spec: query parameter name `withData`. -/
def PARAM_WITH_DATA : String := "withData"

/-- Modelled from the spec: query parameter name `waitForSyncReplication`
(cluster deployments only). -/
def PARAM_WAIT_FOR_SYNC_REPLICATION : String := "waitForSyncReplication"

/-- `ListCollections` method (methods.rs lines 13-84). -/
structure ListCollections where
  exclude_system : Bool
  deriving DecidableEq, Repr

/-- `ListCollections::new()`: `exclude_system` set to `true`. -/
def ListCollections.new : ListCollections := ⟨true⟩

/-- `ListCollections::including_system()`: `exclude_system` set to `false`. -/
def ListCollections.including_system : ListCollections := ⟨false⟩

def ListCollections.operation (_ : ListCollections) : Operation := .read

def ListCollections.path (_ : ListCollections) : String := PATH_API_COLLECTION

/-- `ListCollections::parameters` inserts `excludeSystem = true` only when
the `exclude_system` field is `true` (methods.rs lines 69-75). -/
def ListCollections.parameters (m : ListCollections) : Parameters :=
  if m.exclude_system then
    Parameters.empty.insertEntry PARAM_EXCLUDE_SYSTEM (.vBool true)
  else
    Parameters.empty

def ListCollections.header (_ : ListCollections) : Parameters := Parameters.empty

def ListCollections.content (_ : ListCollections) : Option Unit := none

/-- Modelled from the spec: the create-collection payload `{name, type, …}`
(`NewCollection` lives in collection/types.rs, outside the provided
sources); only its presence as the request body matters here. -/
structure NewCollection where
  name : String
  deriving DecidableEq, Repr

/-- `CreateCollection` method compiled with the `cluster` feature
(methods.rs lines 86-209): carries the new collection payload and the
`wait_for_sync_replication` flag. -/
structure CreateCollection where
  collection : NewCollection
  wait_for_sync_replication : Bool
  deriving DecidableEq, Repr

/-- `CreateCollection::new(collection)`: `wait_for_sync_replication`
defaults to `true`. -/
def CreateCollection.new (c : NewCollection) : CreateCollection := ⟨c, true⟩

def CreateCollection.operation (_ : CreateCollection) : Operation := .create

def CreateCollection.path (_ : CreateCollection) : String := PATH_API_COLLECTION

/-- `CreateCollection::parameters` under the `cluster` feature inserts
`waitForSyncReplication = 0` only when the flag is `false`
(methods.rs lines 193-200). -/
def CreateCollection.parameters (m : CreateCollection) : Parameters :=
  if !m.wait_for_sync_replication then
    Parameters.empty.insertEntry PARAM_WAIT_FOR_SYNC_REPLICATION (.vInt 0)
  else
    Parameters.empty

/-- `CreateCollection::parameters` without the `cluster` feature
(methods.rs lines 188-191). -/
def CreateCollection.parametersNoCluster (_ : CreateCollection) : Parameters :=
  Parameters.empty

def CreateCollection.header (_ : CreateCollection) : Parameters := Parameters.empty

def CreateCollection.content (m : CreateCollection) : Option NewCollection :=
  some m.collection

/-- `DropCollection` method (methods.rs lines 211-306): a collection name
and a `system` flag that marks the collection as a system collection. -/
structure DropCollection where
  name : String
  system : Bool
  deriving DecidableEq, Repr

/-- `DropCollection::with_name(name)`: `system` set to `false`. -/
def DropCollection.with_name (n : String) : DropCollection := ⟨n, false⟩

/-- `DropCollection::system_with_name(name)`: `system` set to `true`. -/
def DropCollection.system_with_name (n : String) : DropCollection := ⟨n, true⟩

def DropCollection.operation (_ : DropCollection) : Operation := .delete

/-- `DropCollection::path` (methods.rs lines 290-293). -/
def DropCollection.path (m : DropCollection) : String :=
  PATH_API_COLLECTION ++ "/" ++ m.name

def DropCollection.parameters (_ : DropCollection) : Parameters := Parameters.empty

def DropCollection.header (_ : DropCollection) : Parameters := Parameters.empty

def DropCollection.content (_ : DropCollection) : Option Unit := none

/-- `GetCollection` method (methods.rs lines 308-370). -/
structure GetCollection where
  name : String
  deriving DecidableEq, Repr

def GetCollection.operation (_ : GetCollection) : Operation := .read

def GetCollection.path (m : GetCollection) : String :=
  PATH_API_COLLECTION ++ "/" ++ m.name

def GetCollection.parameters (_ : GetCollection) : Parameters := Parameters.empty

/-- `GetCollectionChecksum` method (methods.rs lines 372-458). -/
structure GetCollectionChecksum where
  name : String
  with_revisions : Bool
  with_data : Bool
  deriving DecidableEq, Repr

/-- `GetCollectionChecksum::with_name(name)`: both flags default `false`. -/
def GetCollectionChecksum.with_name (n : String) : GetCollectionChecksum :=
  ⟨n, false, false⟩

def GetCollectionChecksum.operation (_ : GetCollectionChecksum) : Operation := .read

/-- `GetCollectionChecksum::path` (methods.rs lines 435-438). -/
def GetCollectionChecksum.path (m : GetCollectionChecksum) : String :=
  PATH_API_COLLECTION ++ "/" ++ m.name ++ PATH_CHECKSUM

/-- `GetCollectionChecksum::parameters` inserts `withRevisions = 0` only
when `with_revisions` is `false` and `withData = 0` only when `with_data`
is `false` (methods.rs lines 440-449). -/
def GetCollectionChecksum.parameters (m : GetCollectionChecksum) : Parameters :=
  let p1 :=
    if !m.with_revisions then
      Parameters.empty.insertEntry PARAM_WITH_REVISIONS (.vInt 0)
    else
      Parameters.empty
  if !m.with_data then
    p1.insertEntry PARAM_WITH_DATA (.vInt 0)
  else
    p1

def GetCollectionChecksum.header (_ : GetCollectionChecksum) : Parameters :=
  Parameters.empty

def GetCollectionChecksum.content (_ : GetCollectionChecksum) : Option Unit := none

/-- `GetCollectionProperties` method (methods.rs lines 588-650). -/
structure GetCollectionProperties where
  name : String
  deriving DecidableEq, Repr

def GetCollectionProperties.operation (_ : GetCollectionProperties) : Operation := .read

/-- `GetCollectionProperties::path` (methods.rs lines 634-637). -/
def GetCollectionProperties.path (m : GetCollectionProperties) : String :=
  PATH_API_COLLECTION ++ "/" ++ m.name ++ PATH_PROPERTIES

/-- Modelled from the spec: the properties-update payload of
`ChangeCollectionProperties` (`CollectionPropertiesUpdate` lives in
collection/types.rs, outside the provided sources); per the method doc
comment it can change `wait_for_sync` and `journal_size`. -/
structure CollectionPropertiesUpdate where
  wait_for_sync : Option Bool
  journal_size : Option Nat
  deriving DecidableEq, Repr

/-- `ChangeCollectionProperties` method (methods.rs lines 652-725). -/
structure ChangeCollectionProperties where
  name : String
  updates : CollectionPropertiesUpdate
  deriving DecidableEq, Repr

def ChangeCollectionProperties.operation (_ : ChangeCollectionProperties) : Operation :=
  .replace

/-- `ChangeCollectionProperties::path` (methods.rs lines 709-712). -/
def ChangeCollectionProperties.path (m : ChangeCollectionProperties) : String :=
  PATH_API_COLLECTION ++ "/" ++ m.name ++ PATH_PROPERTIES

/-- Modelled from the spec: the rename-collection body `{name: newName}`
(`RenameTo` lives in collection/types.rs, outside the provided sources). -/
structure RenameTo where
  name : String
  deriving DecidableEq, Repr

/-- `RenameCollection` method (methods.rs lines 727-789). -/
structure RenameCollection where
  name : String
  rename_to : RenameTo
  deriving DecidableEq, Repr

def RenameCollection.operation (_ : RenameCollection) : Operation := .replace

/-- `RenameCollection::path` (methods.rs lines 772-776). -/
def RenameCollection.path (m : RenameCollection) : String :=
  PATH_API_COLLECTION ++ "/" ++ m.name ++ PATH_RENAME

def RenameCollection.parameters (_ : RenameCollection) : Parameters := Parameters.empty

def RenameCollection.content (m : RenameCollection) : Option RenameTo :=
  some m.rename_to

end Rincon

namespace Rincon

/-- C7: parameters() emits a query-parameter entry only for non-default
field values: ListCollections emits excludeSystem only when
exclude_system is true, GetCollectionChecksum emits withRevisions and
withData only when the corresponding field is false, and CreateCollection
(cluster feature) emits waitForSyncReplication=0 only when
wait_for_sync_replication is false; a field at its default emits
nothing. -/
theorem parameters_emitted_only_for_non_default_values :
    (∀ m : ListCollections,
      ((PARAM_EXCLUDE_SYSTEM, ParamValue.vBool true) ∈ m.parameters ↔
        m.exclude_system = true) ∧
      (m.exclude_system = false → m.parameters = [])) ∧
    (∀ m : GetCollectionChecksum,
      ((PARAM_WITH_REVISIONS, ParamValue.vInt 0) ∈ m.parameters ↔
        m.with_revisions = false) ∧
      ((PARAM_WITH_DATA, ParamValue.vInt 0) ∈ m.parameters ↔
        m.with_data = false) ∧
      (m.with_revisions = true → m.with_data = true → m.parameters = [])) ∧
    (∀ m : CreateCollection,
      ((PARAM_WAIT_FOR_SYNC_REPLICATION, ParamValue.vInt 0) ∈ m.parameters ↔
        m.wait_for_sync_replication = false) ∧
      (m.wait_for_sync_replication = true → m.parameters = [])) := by
  refine ⟨fun m => ?_, fun m => ?_, fun m => ?_⟩
  · cases h : m.exclude_system <;>
      simp [ListCollections.parameters, Parameters.empty, Parameters.insertEntry, h,
        PARAM_EXCLUDE_SYSTEM]
  · cases h1 : m.with_revisions <;> cases h2 : m.with_data <;>
      simp [GetCollectionChecksum.parameters, Parameters.empty, Parameters.insertEntry,
        h1, h2, PARAM_WITH_REVISIONS, PARAM_WITH_DATA]
  · cases h : m.wait_for_sync_replication <;>
      simp [CreateCollection.parameters, Parameters.empty, Parameters.insertEntry, h,
        PARAM_WAIT_FOR_SYNC_REPLICATION]

/-- Witness for C7 at concrete method values: a method whose fields are at
their default values emits no parameters, and a non-default value emits
its entry. -/
theorem parameters_emitted_only_for_non_default_values_witness :
    (ListCollections.mk false).parameters = [] ∧
    (PARAM_EXCLUDE_SYSTEM, ParamValue.vBool true) ∈ (ListCollections.mk true).parameters ∧
    (GetCollectionChecksum.mk "c" true true).parameters = [] ∧
    (CreateCollection.mk ⟨"c"⟩ true).parameters = [] := by
  refine ⟨?_, ?_, ?_, ?_⟩
  · exact (parameters_emitted_only_for_non_default_values.1 (ListCollections.mk false)).2 rfl
  · exact ((parameters_emitted_only_for_non_default_values.1 (ListCollections.mk true)).1).2 rfl
  · exact ((parameters_emitted_only_for_non_default_values.2.1
      (GetCollectionChecksum.mk "c" true true)).2.2) rfl rfl
  · exact ((parameters_emitted_only_for_non_default_values.2.2
      (CreateCollection.mk ⟨"c"⟩ true)).2) rfl

/-- C8: for every collection method addressing a named collection, path()
equals the collection base path, then a slash, then the collection name,
then the operation's optional suffix: nothing for DropCollection,
"/checksum" for GetCollectionChecksum, "/properties" for
GetCollectionProperties and ChangeCollectionProperties, "/rename" for
RenameCollection; the name is concatenated verbatim with no further
URL-encoding. -/
theorem path_is_base_slash_name_suffix :
    (∀ (name : String) (sys : Bool),
      (DropCollection.mk name sys).path = PATH_API_COLLECTION ++ "/" ++ name) ∧
    (∀ (name : String) (wr wd : Bool),
      (GetCollectionChecksum.mk name wr wd).path =
        PATH_API_COLLECTION ++ "/" ++ name ++ "/checksum") ∧
    (∀ name : String,
      (GetCollectionProperties.mk name).path =
        PATH_API_COLLECTION ++ "/" ++ name ++ "/properties") ∧
    (∀ (name : String) (u : CollectionPropertiesUpdate),
      (ChangeCollectionProperties.mk name u).path =
        PATH_API_COLLECTION ++ "/" ++ name ++ "/properties") ∧
    (∀ (name : String) (r : RenameTo),
      (RenameCollection.mk name r).path =
        PATH_API_COLLECTION ++ "/" ++ name ++ "/rename") := by
  refine ⟨fun name sys => rfl, fun name wr wd => rfl, fun name => rfl,
    fun name u => rfl, fun name r => rfl⟩

/-- C10: the `system` flag of DropCollection never reaches the prepared
request: for any two DropCollection values with the same collection name
but different `system` flags, operation(), path(), parameters(), header()
and content() all agree. -/
theorem drop_collection_system_flag_not_on_wire :
    ∀ (name : String) (s1 s2 : Bool),
      (DropCollection.mk name s1).operation = (DropCollection.mk name s2).operation ∧
      (DropCollection.mk name s1).path = (DropCollection.mk name s2).path ∧
      (DropCollection.mk name s1).parameters = (DropCollection.mk name s2).parameters ∧
      (DropCollection.mk name s1).header = (DropCollection.mk name s2).header ∧
      (DropCollection.mk name s1).content = (DropCollection.mk name s2).content := by
  intro name s1 s2
  exact ⟨rfl, rfl, rfl, rfl, rfl⟩

end Rincon

namespace ArangoModel

/-- Modelled from the spec: the client error-code taxonomy discriminating
server error numbers (§7); the concrete numbers follow the server
protocol (`ErrorCode` lives in rincon_core, outside the provided
sources). -/
inductive ErrorCode where
  | arangoConflict
  | arangoDocumentNotFound
  | arangoCollectionNotFound
  | arangoUniqueConstraintViolated
  deriving DecidableEq, Repr

/-- Modelled from the spec: the server-internal error number carried by
each error code. -/
def ErrorCode.toNum : ErrorCode → Nat
  | .arangoConflict => 1200
  | .arangoDocumentNotFound => 1202
  | .arangoCollectionNotFound => 1203
  | .arangoUniqueConstraintViolated => 1210

/-- Modelled from the spec: an `ApiError` carries the HTTP status code,
the server error number and the error message (§7). -/
structure ApiError where
  status_code : Nat
  error_code : ErrorCode
  message : String
  deriving DecidableEq, Repr

/-- A document's compound key: collection name plus document key (§3). -/
structure DocumentId where
  collection_name : String
  document_key : String
  deriving DecidableEq, Repr

/-- A stored document on the server side: key, opaque revision tag and
content. -/
structure Doc (C : Type) where
  key : String
  rev : String
  content : C
  deriving DecidableEq, Repr

/-- Modelled from the spec: a database is a mapping from collection names
to their stored documents. -/
abbrev Database (C : Type) := List (String × List (Doc C))

/-- Look up a collection by name. -/
def findCollection {C : Type} (db : Database C) (name : String) :
    Option (List (Doc C)) :=
  (db.find? (fun e => e.1 == name)).map (fun e => e.2)

/-- Look up a document by key inside a collection. -/
def findDoc {C : Type} (docs : List (Doc C)) (k : String) : Option (Doc C) :=
  docs.find? (fun d => d.key == k)

/-- Whether a key is present in a collection. -/
def containsKey {C : Type} (docs : List (Doc C)) (k : String) : Bool :=
  (findDoc docs k).isSome

/-- Replace the stored documents of one collection. -/
def updateDb {C : Type} (db : Database C) (name : String)
    (docs : List (Doc C)) : Database C :=
  db.map (fun e => if e.1 == name then (name, docs) else e)

/-- A materialized document result: id, key, revision and content (§3). -/
structure Document (C : Type) where
  id : DocumentId
  key : String
  revision : String
  content : C
  deriving DecidableEq, Repr

/-- A document header result: id, key and revision without content (§3). -/
structure DocumentHeader where
  id : DocumentId
  key : String
  revision : String
  deriving DecidableEq, Repr

/-- `DocumentUpdate`: a key, the update payload and an optional expected
revision used for the body-level optimistic-concurrency check (§3). -/
structure DocumentUpdate (U : Type) where
  key : String
  content : U
  revision : Option String
  deriving DecidableEq, Repr

/-- The result of a replace/update: header data plus the revision held
before the call and the optional old/new content echoes (§3). -/
structure UpdatedDocumentHeader (C : Type) where
  id : DocumentId
  key : String
  revision : String
  old_revision : String
  old_content : Option C
  new_content : Option C
  deriving DecidableEq, Repr

/-- Modelled from the spec: the server assigns a fresh opaque revision on
every write, distinct from the revision the document held before. -/
def freshRev (r : String) : String := r ++ "+"

/-- Modelled from the spec: the header-level `If-Match` gate; absent it
always passes, present it passes only when equal to the current
revision (§4.4). -/
def revCheckOk (cur : String) (if_match : Option String) : Bool :=
  match if_match with
  | none => true
  | some r => r == cur

/-- Modelled from the spec: the body-level revision gate; with
`ignore_revisions` true it always passes, otherwise it passes when the
embedded revision is absent or equal to the current revision (§4.4). -/
def bodyRevCheckOk (cur : String) (body_rev : Option String)
    (ignore_revisions : Bool) : Bool :=
  if ignore_revisions then true
  else
    match body_rev with
    | none => true
    | some r => r == cur

/-- Modelled from the spec: the precondition failure an unmet revision
gate produces (§7, §8). -/
def preconditionFailed : ApiError :=
  ⟨412, .arangoConflict, "precondition failed"⟩

/-- Modelled from the spec: the call-level error for a missing
collection. -/
def collectionNotFound (coll : String) : ApiError :=
  ⟨404, .arangoCollectionNotFound, "collection not found: " ++ coll⟩

/-- Modelled from the spec: the call-level error for a missing
document. -/
def documentNotFound : ApiError :=
  ⟨404, .arangoDocumentNotFound, "document not found"⟩

/-- Modelled from the spec: `GetDocument` with an optional `If-Match`
header: a missing collection fails with 404 ArangoCollectionNotFound, a
missing key fails with 404 ArangoDocumentNotFound, an unmet `If-Match`
fails with 412 ArangoConflict, otherwise the full document is
returned (§6, §7, §8). -/
def getDocument {C : Type} (db : Database C) (coll k : String)
    (if_match : Option String) : Except ApiError (Document C) :=
  match findCollection db coll with
  | none => .error (collectionNotFound coll)
  | some docs =>
    match findDoc docs k with
    | none => .error documentNotFound
    | some d =>
      if revCheckOk d.rev if_match then
        .ok ⟨⟨coll, k⟩, k, d.rev, d.content⟩
      else
        .error preconditionFailed

/-- Replace the content and revision of the document with the given key. -/
def storeDoc {C : Type} (docs : List (Doc C)) (k : String) (c : C)
    (newRev : String) : List (Doc C) :=
  docs.map (fun d => if d.key == k then ⟨k, newRev, c⟩ else d)

/-- Modelled from the spec: `UpdateDocument`/`ReplaceDocument`: the
collection and document are looked up, then the header-level `If-Match`
gate and the body-level revision gate must both pass; on success the
content is transformed by `applyC`, a fresh revision is assigned, and the
result carries the old revision and the old/new content echoes exactly
when the corresponding return flag was set (§4.4, §4.5-adjacent wire
rows, §8). -/
def updateDocument {C U : Type} (applyC : C → U → C) (db : Database C)
    (coll : String) (upd : DocumentUpdate U) (if_match : Option String)
    (ignore_revisions return_old return_new : Bool) :
    Except ApiError (UpdatedDocumentHeader C × Database C) :=
  match findCollection db coll with
  | none => .error (collectionNotFound coll)
  | some docs =>
    match findDoc docs upd.key with
    | none => .error documentNotFound
    | some d =>
      if revCheckOk d.rev if_match &&
          bodyRevCheckOk d.rev upd.revision ignore_revisions then
        let newC := applyC d.content upd.content
        let newRev := freshRev d.rev
        .ok (⟨⟨coll, upd.key⟩, upd.key, newRev, d.rev,
              if return_old then some d.content else none,
              if return_new then some newC else none⟩,
             updateDb db coll (storeDoc docs upd.key newC newRev))
      else
        .error preconditionFailed

/-- Modelled from the spec: `ReplaceDocument` is the update whose payload
fully replaces the stored content (§4.3, §6 wire table). -/
def replaceDocument {C : Type} (db : Database C) (coll : String)
    (upd : DocumentUpdate C) (if_match : Option String)
    (ignore_revisions return_old return_new : Bool) :
    Except ApiError (UpdatedDocumentHeader C × Database C) :=
  updateDocument (fun _ newC => newC) db coll upd if_match
    ignore_revisions return_old return_new

end ArangoModel

namespace ArangoModel

theorem bodyRevCheckOk_none (cur : String) (ir : Bool) :
    bodyRevCheckOk cur none ir = true := by
  cases ir <;> rfl

theorem revCheckOk_self (cur : String) : revCheckOk cur (some cur) = true := by
  simp [revCheckOk]

theorem freshRev_ne (r : String) : freshRev r ≠ r := by
  intro h
  have h1 := congrArg String.length h
  rw [freshRev, String.length_append] at h1
  have h2 : ("+" : String).length = 1 := rfl
  rw [h2] at h1
  omega

/-- On success, `updateDocument` returns exactly the header built from the
stored document found under the update's key. -/
theorem updateDocument_ok_shape {C U : Type} {applyC : C → U → C}
    {db : Database C} {coll : String} {upd : DocumentUpdate U}
    {im : Option String} {ir ro rn : Bool}
    {hdr : UpdatedDocumentHeader C} {db2 : Database C}
    (h : updateDocument applyC db coll upd im ir ro rn = .ok (hdr, db2)) :
    ∃ docs d, findCollection db coll = some docs ∧
      findDoc docs upd.key = some d ∧
      hdr = ⟨⟨coll, upd.key⟩, upd.key, freshRev d.rev, d.rev,
             if ro then some d.content else none,
             if rn then some (applyC d.content upd.content) else none⟩ := by
  unfold updateDocument at h
  split at h
  · simp at h
  rename_i docs hc
  split at h
  · simp at h
  rename_i d hd
  split at h
  · simp only [Except.ok.injEq, Prod.mk.injEq] at h
    exact ⟨docs, d, hc, hd, h.1.symm⟩
  · simp at h

/-- C2: with the header-level If-Match conditional set to the stored
document's current revision a replace and a get both succeed; set to any
other string both fail with an ApiError carrying HTTP status 412, error
code ArangoConflict and message "precondition failed". -/
theorem if_match_gate {C : Type} (db : Database C) (coll : String)
    (docs : List (Doc C)) (d : Doc C) (upd : DocumentUpdate C) (r2 : String)
    (ir ro rn : Bool)
    (hcol : findCollection db coll = some docs)
    (hdoc : findDoc docs upd.key = some d)
    (hbody : upd.revision = none)
    (hne : r2 ≠ d.rev) :
    (∃ res, replaceDocument db coll upd (some d.rev) ir ro rn = .ok res) ∧
    replaceDocument db coll upd (some r2) ir ro rn =
      .error ⟨412, .arangoConflict, "precondition failed"⟩ ∧
    (∃ doc, getDocument db coll upd.key (some d.rev) = .ok doc) ∧
    getDocument db coll upd.key (some r2) =
      .error ⟨412, .arangoConflict, "precondition failed"⟩ := by
  have hbeq : (r2 == d.rev) = false := by
    simp [hne]
  refine ⟨⟨?_, ?_⟩, ?_, ⟨?_, ?_⟩, ?_⟩
  · exact (⟨⟨coll, upd.key⟩, upd.key, freshRev d.rev, d.rev,
      if ro then some d.content else none,
      if rn then some upd.content else none⟩,
     updateDb db coll (storeDoc docs upd.key upd.content (freshRev d.rev)))
  · simp [replaceDocument, updateDocument, hcol, hdoc, revCheckOk_self,
      bodyRevCheckOk_none, hbody]
  · simp [replaceDocument, updateDocument, hcol, hdoc, revCheckOk, hbeq,
      preconditionFailed]
  · exact ⟨⟨coll, upd.key⟩, upd.key, d.rev, d.content⟩
  · simp [getDocument, hcol, hdoc, revCheckOk_self]
  · simp [getDocument, hcol, hdoc, revCheckOk, hbeq, preconditionFailed]

/-- Witness for C2 on a one-document database: If-Match equal to the
current revision succeeds, any other string fails with 412 and
ArangoConflict. -/
theorem if_match_gate_witness :
    (∃ res, replaceDocument [("customers", [⟨"94711", "rev1", (0 : Nat)⟩])]
      "customers" ⟨"94711", 7, none⟩ (some "rev1") false false false = .ok res) ∧
    replaceDocument [("customers", [⟨"94711", "rev1", (0 : Nat)⟩])]
      "customers" ⟨"94711", 7, none⟩ (some "wrong") false false false =
      .error ⟨412, .arangoConflict, "precondition failed"⟩ := by
  have h := if_match_gate
    [("customers", [⟨"94711", "rev1", (0 : Nat)⟩])] "customers"
    [⟨"94711", "rev1", (0 : Nat)⟩] ⟨"94711", "rev1", (0 : Nat)⟩
    ⟨"94711", 7, none⟩ "wrong" false false false
    (by decide) (by decide) rfl (by decide)
  exact ⟨h.1, h.2.1⟩

/-- C3: a replace whose DocumentUpdate embeds a wrong expected revision
succeeds when ignore_revisions is true (the embedded revision is not
checked), and fails with an ApiError of status 412 and error code
ArangoConflict when ignore_revisions is false. -/
theorem ignore_revisions_gate {C : Type} (db : Database C) (coll : String)
    (docs : List (Doc C)) (d : Doc C) (upd : DocumentUpdate C) (r2 : String)
    (ro rn : Bool)
    (hcol : findCollection db coll = some docs)
    (hdoc : findDoc docs upd.key = some d)
    (hrev : upd.revision = some r2)
    (hne : r2 ≠ d.rev) :
    (∃ res, replaceDocument db coll upd none true ro rn = .ok res) ∧
    replaceDocument db coll upd none false ro rn =
      .error ⟨412, .arangoConflict, "precondition failed"⟩ := by
  have hbeq : (r2 == d.rev) = false := by
    simp [hne]
  refine ⟨⟨?_, ?_⟩, ?_⟩
  · exact (⟨⟨coll, upd.key⟩, upd.key, freshRev d.rev, d.rev,
      if ro then some d.content else none,
      if rn then some upd.content else none⟩,
     updateDb db coll (storeDoc docs upd.key upd.content (freshRev d.rev)))
  · simp [replaceDocument, updateDocument, hcol, hdoc, revCheckOk, bodyRevCheckOk]
  · simp [replaceDocument, updateDocument, hcol, hdoc, revCheckOk, bodyRevCheckOk,
      hrev, hbeq, preconditionFailed]

/-- Witness for C3 on a one-document database: a wrong embedded revision
is ignored when ignore_revisions is true and rejected with 412 and
ArangoConflict when false. -/
theorem ignore_revisions_gate_witness :
    (∃ res, replaceDocument [("customers", [⟨"94711", "rev1", (0 : Nat)⟩])]
      "customers" ⟨"94711", 7, some "wrong_revision"⟩ none true true true = .ok res) ∧
    replaceDocument [("customers", [⟨"94711", "rev1", (0 : Nat)⟩])]
      "customers" ⟨"94711", 7, some "wrong_revision"⟩ none false true true =
      .error ⟨412, .arangoConflict, "precondition failed"⟩ := by
  have h := ignore_revisions_gate
    [("customers", [⟨"94711", "rev1", (0 : Nat)⟩])] "customers"
    [⟨"94711", "rev1", (0 : Nat)⟩] ⟨"94711", "rev1", (0 : Nat)⟩
    ⟨"94711", 7, some "wrong_revision"⟩ "wrong_revision" true true
    (by decide) (by decide) rfl (by decide)
  exact h

/-- C4: in every successful replace or update result, old_content is
populated exactly when return_old was set and new_content exactly when
return_new was set; a false flag forces the corresponding content to be
None. -/
theorem return_flag_gating {C U : Type} (applyC : C → U → C)
    (db : Database C) (coll : String) (uu : DocumentUpdate U)
    (uc : DocumentUpdate C) (im im2 : Option String) (ir ir2 ro rn : Bool)
    (hdrU hdrC : UpdatedDocumentHeader C) (dbU dbC : Database C) :
    (updateDocument applyC db coll uu im ir ro rn = .ok (hdrU, dbU) →
      hdrU.old_content.isSome = ro ∧ hdrU.new_content.isSome = rn ∧
      (ro = false → hdrU.old_content = none) ∧
      (rn = false → hdrU.new_content = none)) ∧
    (replaceDocument db coll uc im2 ir2 ro rn = .ok (hdrC, dbC) →
      hdrC.old_content.isSome = ro ∧ hdrC.new_content.isSome = rn ∧
      (ro = false → hdrC.old_content = none) ∧
      (rn = false → hdrC.new_content = none)) := by
  constructor
  · intro h
    obtain ⟨docs, d, _, _, hh⟩ := updateDocument_ok_shape h
    subst hh
    cases ro <;> cases rn <;> simp
  · intro h
    obtain ⟨docs, d, _, _, hh⟩ := updateDocument_ok_shape h
    subst hh
    cases ro <;> cases rn <;> simp

/-- Witness for C4 on a one-document database: a replace with return_old
true and return_new false yields a result whose old_content is present
and whose new_content is absent. -/
theorem return_flag_gating_witness :
    (UpdatedDocumentHeader.old_content
      (⟨⟨"c", "k1"⟩, "k1", "rev1+", "rev1", some (0 : Nat), none⟩ :
        UpdatedDocumentHeader Nat)).isSome = true ∧
    (UpdatedDocumentHeader.new_content
      (⟨⟨"c", "k1"⟩, "k1", "rev1+", "rev1", some (0 : Nat), none⟩ :
        UpdatedDocumentHeader Nat)).isSome = false := by
  have h := (return_flag_gating (fun (_ : Nat) (u : Nat) => u)
    [("c", [⟨"k1", "rev1", (0 : Nat)⟩])] "c"
    ⟨"k1", 9, none⟩ ⟨"k1", 9, none⟩ none none false false true false
    ⟨⟨"c", "k1"⟩, "k1", "rev1+", "rev1", some 0, none⟩
    ⟨⟨"c", "k1"⟩, "k1", "rev1+", "rev1", some 0, none⟩
    [("c", [⟨"k1", "rev1+", (9 : Nat)⟩])]
    [("c", [⟨"k1", "rev1+", (9 : Nat)⟩])]).2 rfl
  exact ⟨h.1, h.2.1⟩

/-- C5: after every successful replace or update, the result's
old_revision equals the revision the document held immediately before
the call, and the new revision differs from it, independent of the
return flags. -/
theorem revision_changes_on_write {C U : Type} (applyC : C → U → C)
    (db : Database C) (coll : String) (docs : List (Doc C)) (d dC : Doc C)
    (uu : DocumentUpdate U) (uc : DocumentUpdate C)
    (im im2 : Option String) (ir ir2 ro rn : Bool)
    (hdrU hdrC : UpdatedDocumentHeader C) (dbU dbC : Database C)
    (hcol : findCollection db coll = some docs)
    (hdocU : findDoc docs uu.key = some d)
    (hdocC : findDoc docs uc.key = some dC) :
    (updateDocument applyC db coll uu im ir ro rn = .ok (hdrU, dbU) →
      hdrU.old_revision = d.rev ∧ hdrU.revision ≠ d.rev ∧
      hdrU.revision ≠ hdrU.old_revision) ∧
    (replaceDocument db coll uc im2 ir2 ro rn = .ok (hdrC, dbC) →
      hdrC.old_revision = dC.rev ∧ hdrC.revision ≠ dC.rev ∧
      hdrC.revision ≠ hdrC.old_revision) := by
  constructor
  · intro h
    obtain ⟨docs2, d2, hc2, hd2, hh⟩ := updateDocument_ok_shape h
    rw [hcol] at hc2
    obtain rfl : docs = docs2 := Option.some.inj hc2
    rw [hdocU] at hd2
    obtain rfl : d = d2 := Option.some.inj hd2
    subst hh
    exact ⟨rfl, freshRev_ne d.rev, freshRev_ne d.rev⟩
  · intro h
    obtain ⟨docs2, d2, hc2, hd2, hh⟩ := updateDocument_ok_shape h
    rw [hcol] at hc2
    obtain rfl : docs = docs2 := Option.some.inj hc2
    rw [hdocC] at hd2
    obtain rfl : dC = d2 := Option.some.inj hd2
    subst hh
    exact ⟨rfl, freshRev_ne dC.rev, freshRev_ne dC.rev⟩

/-- Witness for C5 on a one-document database: the successful replace
reports old_revision "rev1" and a new revision different from it. -/
theorem revision_changes_on_write_witness :
    UpdatedDocumentHeader.old_revision
      (⟨⟨"c", "k1"⟩, "k1", "rev1+", "rev1", none, none⟩ :
        UpdatedDocumentHeader Nat) = "rev1" ∧
    UpdatedDocumentHeader.revision
      (⟨⟨"c", "k1"⟩, "k1", "rev1+", "rev1", none, none⟩ :
        UpdatedDocumentHeader Nat) ≠ "rev1" := by
  have h := (revision_changes_on_write (fun (_ : Nat) (u : Nat) => u)
    [("c", [⟨"k1", "rev1", (0 : Nat)⟩])] "c"
    [⟨"k1", "rev1", (0 : Nat)⟩] ⟨"k1", "rev1", (0 : Nat)⟩ ⟨"k1", "rev1", (0 : Nat)⟩
    ⟨"k1", 9, none⟩ ⟨"k1", 9, none⟩ none none false false false false
    ⟨⟨"c", "k1"⟩, "k1", "rev1+", "rev1", none, none⟩
    ⟨⟨"c", "k1"⟩, "k1", "rev1+", "rev1", none, none⟩
    [("c", [⟨"k1", "rev1+", (9 : Nat)⟩])]
    [("c", [⟨"k1", "rev1+", (9 : Nat)⟩])]
    (by decide) (by decide) (by decide)).2 rfl
  exact ⟨h.1, h.2.1⟩

/-- C6: fetching a missing key in an existing collection fails with 404
and ArangoDocumentNotFound, fetching any key in a missing collection
fails with 404 and ArangoCollectionNotFound, and the two cases carry
different server error numbers. -/
theorem not_found_discrimination {C : Type} (db : Database C)
    (coll coll2 k k2 : String) (docs : List (Doc C))
    (hcol : findCollection db coll = some docs)
    (hnone : findDoc docs k = none)
    (hmiss : findCollection db coll2 = none) :
    getDocument db coll k none =
      .error ⟨404, .arangoDocumentNotFound, "document not found"⟩ ∧
    getDocument db coll2 k2 none =
      .error ⟨404, .arangoCollectionNotFound, "collection not found: " ++ coll2⟩ ∧
    ErrorCode.toNum .arangoDocumentNotFound ≠
      ErrorCode.toNum .arangoCollectionNotFound := by
  refine ⟨?_, ?_, by decide⟩
  · simp [getDocument, hcol, hnone, documentNotFound]
  · simp [getDocument, hmiss, collectionNotFound]

/-- Witness for C6 on a one-collection database: both not-found errors at
concrete inputs, with their distinct error numbers. -/
theorem not_found_discrimination_witness :
    getDocument [("customers", [⟨"94711", "rev1", (0 : Nat)⟩])]
      "customers" "not_existing99" none =
      .error ⟨404, .arangoDocumentNotFound, "document not found"⟩ ∧
    getDocument [("customers", [⟨"94711", "rev1", (0 : Nat)⟩])]
      "not_existing99" "94711" none =
      .error ⟨404, .arangoCollectionNotFound,
        "collection not found: " ++ "not_existing99"⟩ := by
  have h := not_found_discrimination
    [("customers", [⟨"94711", "rev1", (0 : Nat)⟩])]
    "customers" "not_existing99" "not_existing99" "94711"
    [⟨"94711", "rev1", (0 : Nat)⟩]
    (by decide) (by decide) (by decide)
  exact ⟨h.1, h.2.1⟩

end ArangoModel

namespace ArangoModel

/-- Modelled from the spec: a new document to insert: its content plus an
optional pre-assigned key; if no key is given the server assigns
one (§3). -/
structure NewDocument (C : Type) where
  key : Option String
  content : C
  deriving DecidableEq, Repr

/-- Modelled from the spec: one element of a batch response: a success
(document header, plus the new document content when return-new was
requested) or an element-level error carrying code and message (§4.5,
§7). -/
inductive ElementOutcome (C : Type) where
  | success (header : DocumentHeader) (new_content : Option C)
  | elementError (code : ErrorCode) (message : String)
  deriving DecidableEq, Repr

/-- Modelled from the spec: the element-level message of a duplicate-key
failure inside a batch. -/
def uniqueConstraintMsg : String :=
  "unique constraint violated - in index 0 of type primary over [\"_key\"]"

/-- Modelled from the spec: when no key is pre-assigned the server
assigns one not yet present; the concatenation of all present keys plus
one character is longer than, hence different from, every present key. -/
def freshKey {C : Type} (docs : List (Doc C)) : String :=
  (docs.foldr (fun d acc => d.key ++ acc) "") ++ "k"

/-- Modelled from the spec: the opaque revision the server assigns to a
newly inserted document. -/
def insertRev (k : String) : String := "rev-" ++ k

/-- Modelled from the spec: insertion of a single batch element: a key
already present yields the element-level unique-constraint violation and
leaves the collection unchanged; otherwise the document is stored and a
success outcome is produced (§4.5). -/
def insertOne {C : Type} (coll : String) (docs : List (Doc C))
    (nd : NewDocument C) (return_new : Bool) :
    List (Doc C) × ElementOutcome C :=
  let k := match nd.key with
    | some k => k
    | none => freshKey docs
  if containsKey docs k then
    (docs, .elementError .arangoUniqueConstraintViolated uniqueConstraintMsg)
  else
    (docs ++ [⟨k, insertRev k, nd.content⟩],
     .success ⟨⟨coll, k⟩, k, insertRev k⟩
       (if return_new then some nd.content else none))

/-- Modelled from the spec: the batch aggregator walks the input items in
order, threading the collection state and collecting exactly one outcome
per item; a failed element neither retries nor stops the remaining
elements (§4.5). -/
def insertMany {C : Type} (coll : String) (docs : List (Doc C))
    (nds : List (NewDocument C)) (return_new : Bool) :
    List (Doc C) × List (ElementOutcome C) :=
  match nds with
  | [] => (docs, [])
  | nd :: rest =>
    ((insertMany coll (insertOne coll docs nd return_new).1 rest return_new).1,
     (insertOne coll docs nd return_new).2 ::
       (insertMany coll (insertOne coll docs nd return_new).1 rest return_new).2)

/-- Modelled from the spec: the overall batch call
(`InsertDocuments`/`InsertDocumentsReturnNew`): a missing collection is a
call-level error; otherwise the call succeeds with one outcome per input
item even when individual elements failed (§4.5, §7). -/
def insertDocuments {C : Type} (db : Database C) (coll : String)
    (nds : List (NewDocument C)) (return_new : Bool) :
    Except ApiError (List (ElementOutcome C) × Database C) :=
  match findCollection db coll with
  | none => .error (collectionNotFound coll)
  | some docs =>
    .ok ((insertMany coll docs nds return_new).2,
         updateDb db coll (insertMany coll docs nds return_new).1)

theorem containsKey_cons {C : Type} (a : Doc C) (l : List (Doc C)) (x : String) :
    containsKey (a :: l) x = ((a.key == x) || containsKey l x) := by
  cases h : (a.key == x) <;>
    simp [containsKey, findDoc, List.find?, h]

theorem containsKey_nil {C : Type} (x : String) :
    containsKey ([] : List (Doc C)) x = false := rfl

theorem containsKey_append_single {C : Type} (docs : List (Doc C)) (d : Doc C)
    (x : String) :
    containsKey (docs ++ [d]) x = (containsKey docs x || (d.key == x)) := by
  induction docs with
  | nil => simp [containsKey_cons, containsKey_nil]
  | cons a l ih => simp [containsKey_cons, ih, Bool.or_assoc]

theorem insertMany_append {C : Type} (coll : String) (docs : List (Doc C))
    (xs ys : List (NewDocument C)) (rn : Bool) :
    insertMany coll docs (xs ++ ys) rn =
      ((insertMany coll (insertMany coll docs xs rn).1 ys rn).1,
       (insertMany coll docs xs rn).2 ++
         (insertMany coll (insertMany coll docs xs rn).1 ys rn).2) := by
  induction xs generalizing docs with
  | nil => simp [insertMany]
  | cons x xs ih => simp [insertMany, ih]

/-- Inserting a batch of pairwise-distinct pre-assigned keys, none of
which is present yet, succeeds element-wise; the resulting collection
contains exactly the old keys plus the batch keys. -/
theorem insertMany_all_fresh {C : Type} (coll : String) (rn : Bool) :
    ∀ (nds : List (NewDocument C)) (docs : List (Doc C)),
      (∀ nd ∈ nds, nd.key.isSome) →
      (nds.filterMap NewDocument.key).Nodup →
      (∀ x ∈ nds.filterMap NewDocument.key, containsKey docs x = false) →
      (insertMany coll docs nds rn).2.length = nds.length ∧
      (∀ o ∈ (insertMany coll docs nds rn).2, ∃ h nc, o = .success h nc) ∧
      (∀ x, containsKey (insertMany coll docs nds rn).1 x = true ↔
        (containsKey docs x = true ∨ x ∈ nds.filterMap NewDocument.key)) := by
  intro nds
  induction nds with
  | nil =>
    intro docs _ _ _
    simp [insertMany]
  | cons nd rest ih =>
    intro docs hsome hnodup hfresh
    obtain ⟨k, hk⟩ := Option.isSome_iff_exists.mp (hsome nd (by simp))
    have hkeys : (nd :: rest).filterMap NewDocument.key =
        k :: rest.filterMap NewDocument.key := by
      simp [List.filterMap_cons, hk]
    rw [hkeys] at hnodup hfresh
    have hkfresh : containsKey docs k = false := hfresh k (by simp)
    have hone : insertOne coll docs nd rn =
        (docs ++ [⟨k, insertRev k, nd.content⟩],
         .success ⟨⟨coll, k⟩, k, insertRev k⟩
           (if rn then some nd.content else none)) := by
      simp [insertOne, hk, hkfresh]
    have hknotmem : k ∉ rest.filterMap NewDocument.key :=
      (List.nodup_cons.mp hnodup).1
    have hrest := ih (docs ++ [⟨k, insertRev k, nd.content⟩])
      (fun nd2 h2 => hsome nd2 (List.mem_cons_of_mem _ h2))
      (List.nodup_cons.mp hnodup).2
      (by
        intro x hx
        rw [containsKey_append_single]
        have h1 : containsKey docs x = false := hfresh x (by simp [hx])
        have h2 : ((⟨k, insertRev k, nd.content⟩ : Doc C).key == x) = false := by
          simp only [beq_eq_false_iff_ne]
          intro he
          exact hknotmem (he ▸ hx)
        rw [h1, h2]
        rfl)
    simp only [insertMany, hone]
    refine ⟨by simp [hrest.1], ?_, ?_⟩
    · intro o ho
      simp only [List.mem_cons] at ho
      rcases ho with rfl | ho
      · exact ⟨_, _, rfl⟩
      · exact hrest.2.1 o ho
    · intro x
      rw [hkeys]
      rw [hrest.2.2 x, containsKey_append_single]
      simp only [Bool.or_eq_true, beq_iff_eq, List.mem_cons]
      constructor
      · rintro ((h | h) | h)
        · exact Or.inl h
        · exact Or.inr (Or.inl h.symm)
        · exact Or.inr (Or.inr h)
      · rintro (h | (h | h))
        · exact Or.inl (Or.inl h)
        · exact Or.inl (Or.inr h.symm)
        · exact Or.inr h

end ArangoModel

namespace ArangoModel

/-- C1: a batch insert where one item carries the same pre-assigned key
as an earlier item returns one outcome per input item in input order:
the earlier item's outcome is a success, the duplicate item's outcome is
an element-level error with code ArangoUniqueConstraintViolated, every
other item's outcome is a success, and the overall call is not an
error. -/
theorem batch_insert_duplicate_key {C : Type} (db : Database C) (coll : String)
    (docs0 : List (Doc C)) (pre mid post : List (NewDocument C))
    (dj di : NewDocument C) (k : String) (rn : Bool)
    (hcol : findCollection db coll = some docs0)
    (hjk : dj.key = some k) (hik : di.key = some k)
    (hsome : ∀ nd ∈ pre ++ mid ++ post, nd.key.isSome)
    (hnodup : ((pre ++ mid ++ post).filterMap NewDocument.key).Nodup)
    (hknew : k ∉ (pre ++ mid ++ post).filterMap NewDocument.key)
    (hinit : ∀ x ∈ (pre ++ dj :: (mid ++ di :: post)).filterMap NewDocument.key,
      containsKey docs0 x = false) :
    ∃ (outsPre outsMid outsPost : List (ElementOutcome C)) (db2 : Database C),
      insertDocuments db coll (pre ++ dj :: (mid ++ di :: post)) rn =
        .ok (outsPre ++
          ElementOutcome.success (⟨⟨coll, k⟩, k, insertRev k⟩ : DocumentHeader) (if rn then some dj.content else none) ::
          (outsMid ++ ElementOutcome.elementError ErrorCode.arangoUniqueConstraintViolated uniqueConstraintMsg :: outsPost), db2) ∧
      outsPre.length = pre.length ∧
      outsMid.length = mid.length ∧
      outsPost.length = post.length ∧
      (∀ o ∈ outsPre ++ (outsMid ++ outsPost), ∃ h nc, o = .success h nc) := by
  have hsomePre : ∀ nd ∈ pre, nd.key.isSome := fun nd h => hsome nd (by simp [h])
  have hsomeMid : ∀ nd ∈ mid, nd.key.isSome := fun nd h => hsome nd (by simp [h])
  have hsomePost : ∀ nd ∈ post, nd.key.isSome := fun nd h => hsome nd (by simp [h])
  have hkeysSplit : (pre ++ mid ++ post).filterMap NewDocument.key =
      pre.filterMap NewDocument.key ++
        (mid.filterMap NewDocument.key ++ post.filterMap NewDocument.key) := by
    simp [List.filterMap_append]
  rw [hkeysSplit] at hnodup hknew
  obtain ⟨hnp, hrest2, hdisj⟩ := List.nodup_append.mp hnodup
  obtain ⟨hnm, hnpo, hdisj2⟩ := List.nodup_append.mp hrest2
  have hkNotPre : k ∉ pre.filterMap NewDocument.key := fun h => hknew (by simp [h])
  have hkNotMid : k ∉ mid.filterMap NewDocument.key := fun h => hknew (by simp [h])
  have hkNotPost : k ∉ post.filterMap NewDocument.key := fun h => hknew (by simp [h])
  have hinitAll : ∀ x, (x ∈ pre.filterMap NewDocument.key ∨ x = k ∨
      x ∈ mid.filterMap NewDocument.key ∨ x ∈ post.filterMap NewDocument.key) →
      containsKey docs0 x = false := by
    intro x hx
    apply hinit
    simp only [List.filterMap_append, List.filterMap_cons, hjk, hik,
      List.mem_append, List.mem_cons]
    tauto
  obtain ⟨len1, suc1, con1⟩ := insertMany_all_fresh coll rn pre docs0 hsomePre hnp
    (fun x hx => hinitAll x (Or.inl hx))
  have hs1k : containsKey (insertMany coll docs0 pre rn).1 k = false := by
    cases hb : containsKey (insertMany coll docs0 pre rn).1 k with
    | false => rfl
    | true =>
      exfalso
      rcases (con1 k).mp hb with h0 | hp
      · rw [hinitAll k (Or.inr (Or.inl rfl))] at h0
        exact Bool.false_ne_true h0
      · exact hkNotPre hp
  have honej : insertOne coll (insertMany coll docs0 pre rn).1 dj rn =
      ((insertMany coll docs0 pre rn).1 ++ [(⟨k, insertRev k, dj.content⟩ : Doc C)],
       .success (⟨⟨coll, k⟩, k, insertRev k⟩ : DocumentHeader) (if rn then some dj.content else none)) := by
    simp [insertOne, hjk, hs1k]
  have con2 : ∀ x, containsKey ((insertMany coll docs0 pre rn).1 ++ [(⟨k, insertRev k, dj.content⟩ : Doc C)]) x =
      (containsKey (insertMany coll docs0 pre rn).1 x || (k == x)) := by
    intro x
    exact containsKey_append_single _ _ x
  have freshMid : ∀ x ∈ mid.filterMap NewDocument.key,
      containsKey ((insertMany coll docs0 pre rn).1 ++ [(⟨k, insertRev k, dj.content⟩ : Doc C)]) x = false := by
    intro x hx
    rw [con2 x]
    have h1 : containsKey (insertMany coll docs0 pre rn).1 x = false := by
      cases hb : containsKey (insertMany coll docs0 pre rn).1 x with
      | false => rfl
      | true =>
        exfalso
        rcases (con1 x).mp hb with h0 | hp
        · rw [hinitAll x (Or.inr (Or.inr (Or.inl hx)))] at h0
          exact Bool.false_ne_true h0
        · exact hdisj hp (by simp [hx])
    have h2 : (k == x) = false := by
      rw [beq_eq_false_iff_ne]
      rintro rfl
      exact hkNotMid hx
    rw [h1, h2]
    rfl
  obtain ⟨len2, suc2, con3⟩ := insertMany_all_fresh coll rn mid ((insertMany coll docs0 pre rn).1 ++ [(⟨k, insertRev k, dj.content⟩ : Doc C)]) hsomeMid hnm freshMid
  have hs3k : containsKey (insertMany coll ((insertMany coll docs0 pre rn).1 ++ [(⟨k, insertRev k, dj.content⟩ : Doc C)]) mid rn).1 k = true := by
    apply (con3 k).mpr
    left
    rw [con2 k]
    simp
  have honei : insertOne coll (insertMany coll ((insertMany coll docs0 pre rn).1 ++ [(⟨k, insertRev k, dj.content⟩ : Doc C)]) mid rn).1 di rn =
      ((insertMany coll ((insertMany coll docs0 pre rn).1 ++ [(⟨k, insertRev k, dj.content⟩ : Doc C)]) mid rn).1, ElementOutcome.elementError ErrorCode.arangoUniqueConstraintViolated uniqueConstraintMsg) := by
    simp [insertOne, hik, hs3k]
  have freshPost : ∀ x ∈ post.filterMap NewDocument.key,
      containsKey (insertMany coll ((insertMany coll docs0 pre rn).1 ++ [(⟨k, insertRev k, dj.content⟩ : Doc C)]) mid rn).1 x = false := by
    intro x hx
    cases hb : containsKey (insertMany coll ((insertMany coll docs0 pre rn).1 ++ [(⟨k, insertRev k, dj.content⟩ : Doc C)]) mid rn).1 x with
    | false => rfl
    | true =>
      exfalso
      rcases (con3 x).mp hb with h2 | hm
      · rw [con2 x, Bool.or_eq_true] at h2
        rcases h2 with h1 | hk2
        · rcases (con1 x).mp h1 with h0 | hp
          · rw [hinitAll x (Or.inr (Or.inr (Or.inr hx)))] at h0
            exact Bool.false_ne_true h0
          · exact hdisj hp (by simp [hx])
        · rw [beq_iff_eq] at hk2
          subst hk2
          exact hkNotPost hx
      · exact hdisj2 hm hx
  obtain ⟨len3, suc3, _⟩ := insertMany_all_fresh coll rn post
    (insertMany coll ((insertMany coll docs0 pre rn).1 ++ [(⟨k, insertRev k, dj.content⟩ : Doc C)]) mid rn).1 hsomePost hnpo freshPost
  refine ⟨(insertMany coll docs0 pre rn).2,
    (insertMany coll ((insertMany coll docs0 pre rn).1 ++ [(⟨k, insertRev k, dj.content⟩ : Doc C)]) mid rn).2,
    (insertMany coll (insertMany coll ((insertMany coll docs0 pre rn).1 ++ [(⟨k, insertRev k, dj.content⟩ : Doc C)]) mid rn).1 post rn).2,
    updateDb db coll (insertMany coll (insertMany coll ((insertMany coll docs0 pre rn).1 ++ [(⟨k, insertRev k, dj.content⟩ : Doc C)]) mid rn).1 post rn).1,
    ?_, len1, len2, len3, ?_⟩
  · simp only [insertDocuments, hcol]
    rw [insertMany_append coll docs0 pre (dj :: (mid ++ di :: post)) rn]
    simp only [insertMany]
    simp only [honej]
    rw [insertMany_append coll ((insertMany coll docs0 pre rn).1 ++ [(⟨k, insertRev k, dj.content⟩ : Doc C)]) mid (di :: post) rn]
    simp only [insertMany]
    simp only [honei]
  · intro o ho
    rcases List.mem_append.mp ho with h | h
    · exact suc1 o h
    · rcases List.mem_append.mp h with h1 | h2
      · exact suc2 o h1
      · exact suc3 o h2

end ArangoModel

namespace ArangoModel

/-- Witness for C1 mirroring the two-item test batch: both items carry key
"94711" against an empty collection; the first succeeds, the second gets
the element-level unique-constraint error, and the overall call is ok. -/
theorem batch_insert_duplicate_key_witness :
    ∃ (outsPre outsMid outsPost : List (ElementOutcome Nat)) (db2 : Database Nat),
      insertDocuments [("customers50", ([] : List (Doc Nat)))] "customers50"
        [⟨some "94711", (1 : Nat)⟩, ⟨some "94711", 2⟩] false =
        .ok (outsPre ++
          ElementOutcome.success ⟨⟨"customers50", "94711"⟩, "94711", insertRev "94711"⟩
            (if false then some 1 else none) ::
          (outsMid ++
            ElementOutcome.elementError ErrorCode.arangoUniqueConstraintViolated
              uniqueConstraintMsg :: outsPost), db2) ∧
      outsPre.length = 0 ∧
      outsMid.length = 0 ∧
      outsPost.length = 0 ∧
      (∀ o ∈ outsPre ++ (outsMid ++ outsPost), ∃ h nc, o = .success h nc) := by
  exact batch_insert_duplicate_key
    [("customers50", ([] : List (Doc Nat)))] "customers50" []
    [] [] [] ⟨some "94711", 1⟩ ⟨some "94711", 2⟩ "94711" false
    rfl rfl rfl (by simp) (by simp) (by simp) (fun x _ => rfl)

end ArangoModel

namespace ArangoModel

/-- A JSON value, as far as the payloads of this repository need. -/
inductive Json where
  | jNull
  | jBool (b : Bool)
  | jNum (n : Nat)
  | jStr (s : String)
  | jArr (items : List Json)
  | jObj (fields : List (String × Json))

/-- `Tag` newtype from tests/document_api.rs lines 35-36; serde
serializes a newtype struct as its inner value. -/
structure Tag where
  val : String

/-- `ContactType` enum from tests/document_api.rs lines 38-42. -/
inductive ContactType where
  | email
  | phone

/-- `Gender` enum from tests/document_api.rs lines 44-48. -/
inductive Gender where
  | male
  | female

/-- `Contact` struct from tests/document_api.rs lines 28-33. -/
structure Contact where
  address : String
  kind : ContactType
  tag : Option Tag

/-- `Customer` struct from tests/document_api.rs lines 18-26. -/
structure Customer where
  name : String
  contact : List Contact
  gender : Gender
  age : Nat
  active : Bool
  groups : List String

/-- `CustomerUpdate` struct from tests/document_api.rs lines 58-72: every
field is optional and carries serde skip_serializing_if Option::is_none,
so a field that is not provided is omitted from the serialized body. -/
structure CustomerUpdate where
  name : Option String
  contact : Option (List Contact)
  gender : Option Gender
  age : Option Nat
  active : Option Bool
  groups : Option (List String)

/-- Modelled from the spec: serde serialization of `ContactType` (unit
enum variants serialize as their name). -/
def encodeContactType : ContactType → Json
  | .email => .jStr "Email"
  | .phone => .jStr "Phone"

/-- Modelled from the spec: serde serialization of `Gender`. -/
def encodeGender : Gender → Json
  | .male => .jStr "Male"
  | .female => .jStr "Female"

/-- Modelled from the spec: serde serialization of `Option<Tag>` without
a skip attribute: None becomes null, a tag its inner string. -/
def encodeTag : Option Tag → Json
  | none => .jNull
  | some t => .jStr t.val

/-- Modelled from the spec: serde serialization of `Contact`, fields in
declaration order. -/
def encodeContact (ct : Contact) : Json :=
  .jObj [("address", .jStr ct.address), ("kind", encodeContactType ct.kind),
         ("tag", encodeTag ct.tag)]

/-- Serialization of a contact list. -/
def encodeContacts (l : List Contact) : Json :=
  .jArr (l.map encodeContact)

/-- Serialization of a string list. -/
def encodeStrings (l : List String) : Json :=
  .jArr (l.map Json.jStr)

/-- Modelled from the spec: deserialization of `ContactType`. -/
def decodeContactType : Json → Option ContactType
  | .jStr "Email" => some .email
  | .jStr "Phone" => some .phone
  | _ => none

/-- Modelled from the spec: deserialization of `Gender`. -/
def decodeGender : Json → Option Gender
  | .jStr "Male" => some .male
  | .jStr "Female" => some .female
  | _ => none

/-- Modelled from the spec: deserialization of an optional tag. -/
def decodeTag : Json → Option (Option Tag)
  | .jNull => some none
  | .jStr s => some (some ⟨s⟩)
  | _ => none

/-- Modelled from the spec: deserialization of a `Contact` object. -/
def decodeContact : Json → Option Contact
  | .jObj [("address", .jStr a), ("kind", kj), ("tag", tj)] =>
    (match decodeContactType kj, decodeTag tj with
     | some ki, some t => some ⟨a, ki, t⟩
     | _, _ => none)
  | _ => none

/-- Deserialization of a list of contacts, failing on the first bad
element. -/
def decodeContactList : List Json → Option (List Contact)
  | [] => some []
  | j :: rest =>
    (match decodeContact j, decodeContactList rest with
     | some c, some l => some (c :: l)
     | _, _ => none)

/-- Deserialization of a contact array. -/
def decodeContacts : Json → Option (List Contact)
  | .jArr items => decodeContactList items
  | _ => none

/-- Deserialization of a list of strings. -/
def decodeStringList : List Json → Option (List String)
  | [] => some []
  | .jStr s :: rest =>
    (match decodeStringList rest with
     | some l => some (s :: l)
     | none => none)
  | _ => none

/-- Deserialization of a string array. -/
def decodeStrings : Json → Option (List String)
  | .jArr items => decodeStringList items
  | _ => none

/-- Modelled from the spec: serde emits one object entry for an optional
field when it is provided and nothing at all when it is not
(skip_serializing_if Option::is_none). -/
def optBlock {A : Type} (key : String) (enc : A → Json) : Option A →
    List (String × Json)
  | none => []
  | some a => [(key, enc a)]

/-- Modelled from the spec: serde serialization of `CustomerUpdate`:
fields in declaration order, each emitted only when provided. -/
def CustomerUpdate.serialize (u : CustomerUpdate) : List (String × Json) :=
  optBlock "name" Json.jStr u.name ++
    (optBlock "contact" encodeContacts u.contact ++
      (optBlock "gender" encodeGender u.gender ++
        (optBlock "age" Json.jNum u.age ++
          (optBlock "active" Json.jBool u.active ++
            optBlock "groups" encodeStrings u.groups))))

/-- Modelled from the spec: `NewUser` request payload (the type lives in
user/types.rs outside the provided sources): name, password, and an
optional `active` flag that serde skips when not provided, per the
serialization tests in user/tests.rs. -/
structure NewUser where
  user : String
  passwd : String
  active : Option Bool

/-- `NewUser::with_name(user, passwd)`: `active` not provided. -/
def NewUser.with_name (u p : String) : NewUser := ⟨u, p, none⟩

/-- `NewUser::set_active(active)`. -/
def NewUser.set_active (nu : NewUser) (b : Bool) : NewUser :=
  ⟨nu.user, nu.passwd, some b⟩

/-- Modelled from the spec: serde serialization of `NewUser`: user and
passwd always, `active` only when provided. -/
def NewUser.serialize (nu : NewUser) : List (String × Json) :=
  [("user", Json.jStr nu.user), ("passwd", Json.jStr nu.passwd)] ++
    optBlock "active" Json.jBool nu.active

/-- Modelled from the spec: the server applies one field of a partial
update: a known field name present in the body overwrites the stored
field (when its value decodes), anything else leaves the record
unchanged. -/
def applyField (c : Customer) (k : String) (v : Json) : Customer :=
  if k = "name" then
    (match v with
     | .jStr s => { c with name := s }
     | _ => c)
  else if k = "contact" then
    (match decodeContacts v with
     | some l => { c with contact := l }
     | none => c)
  else if k = "gender" then
    (match decodeGender v with
     | some g => { c with gender := g }
     | none => c)
  else if k = "age" then
    (match v with
     | .jNum n => { c with age := n }
     | _ => c)
  else if k = "active" then
    (match v with
     | .jBool b => { c with active := b }
     | _ => c)
  else if k = "groups" then
    (match decodeStrings v with
     | some l => { c with groups := l }
     | none => c)
  else c

/-- Modelled from the spec: the server merges a partial-update body into
the stored document field by field; a field omitted from the body leaves
the stored field untouched (§4.3). -/
def applyPatch (c : Customer) : List (String × Json) → Customer
  | [] => c
  | kv :: rest => applyPatch (applyField c kv.1 kv.2) rest

theorem decodeContactType_encode (k : ContactType) :
    decodeContactType (encodeContactType k) = some k := by
  cases k <;> rfl

theorem decodeGender_encode (g : Gender) :
    decodeGender (encodeGender g) = some g := by
  cases g <;> rfl

theorem decodeTag_encode (t : Option Tag) :
    decodeTag (encodeTag t) = some t := by
  rcases t with _ | ⟨s⟩ <;> rfl

theorem decodeContact_encode (ct : Contact) :
    decodeContact (encodeContact ct) = some ct := by
  obtain ⟨a, ki, t⟩ := ct
  simp [encodeContact, decodeContact, decodeContactType_encode, decodeTag_encode]

theorem decodeContactList_encode (l : List Contact) :
    decodeContactList (l.map encodeContact) = some l := by
  induction l with
  | nil => rfl
  | cons c rest ih => simp [decodeContactList, decodeContact_encode, ih]

theorem decodeContacts_encode (l : List Contact) :
    decodeContacts (encodeContacts l) = some l := by
  simp [decodeContacts, encodeContacts, decodeContactList_encode]

theorem decodeStringList_encode (l : List String) :
    decodeStringList (l.map Json.jStr) = some l := by
  induction l with
  | nil => rfl
  | cons s rest ih => simp [decodeStringList, ih]

theorem decodeStrings_encode (l : List String) :
    decodeStrings (encodeStrings l) = some l := by
  simp [decodeStrings, encodeStrings, decodeStringList_encode]

end ArangoModel

namespace ArangoModel

/-- C9: a field left unset in a partial-update payload is omitted from
the serialized body entirely, so applying the patch leaves the stored
field untouched, while a field explicitly provided is serialized and
overwrites the stored value; and a NewUser serializes without "active"
unless it was explicitly set. -/
theorem partial_update_skip_semantics :
    (∀ (u : CustomerUpdate) (c : Customer),
      ("name" ∈ u.serialize.map Prod.fst ↔ u.name.isSome = true) ∧
      ("contact" ∈ u.serialize.map Prod.fst ↔ u.contact.isSome = true) ∧
      ("gender" ∈ u.serialize.map Prod.fst ↔ u.gender.isSome = true) ∧
      ("age" ∈ u.serialize.map Prod.fst ↔ u.age.isSome = true) ∧
      ("active" ∈ u.serialize.map Prod.fst ↔ u.active.isSome = true) ∧
      ("groups" ∈ u.serialize.map Prod.fst ↔ u.groups.isSome = true) ∧
      (applyPatch c u.serialize).name = u.name.getD c.name ∧
      (applyPatch c u.serialize).contact = u.contact.getD c.contact ∧
      (applyPatch c u.serialize).gender = u.gender.getD c.gender ∧
      (applyPatch c u.serialize).age = u.age.getD c.age ∧
      (applyPatch c u.serialize).active = u.active.getD c.active ∧
      (applyPatch c u.serialize).groups = u.groups.getD c.groups) ∧
    (NewUser.with_name "cesar" "s3cr3t").serialize =
      [("user", Json.jStr "cesar"), ("passwd", Json.jStr "s3cr3t")] ∧
    (∀ nu : NewUser, "active" ∈ nu.serialize.map Prod.fst ↔ nu.active.isSome = true) := by
  refine ⟨?_, rfl, ?_⟩
  · intro u c
    obtain ⟨n, ct, g, a, av, gr⟩ := u
    cases n <;> cases ct <;> cases g <;> cases a <;> cases av <;> cases gr <;>
      simp [CustomerUpdate.serialize, optBlock, applyPatch, applyField,
        decodeContacts_encode, decodeGender_encode, decodeStrings_encode]
  · intro nu
    rcases nu with ⟨us, pw, _ | b⟩ <;> simp [NewUser.serialize, optBlock]

end ArangoModel
